import Mathlib

/-!
Shallow embedding of the go-azure repository (src/main.go and the three
program variants in src/unnamed/part_000).

The programs are one-shot CLI tools: read environment variables, check for
or create a blob container via remote calls, and build a SAS (shared access
signature) request.  Remote calls, the clock and the environment are
external collaborators: each model takes a "world" that fixes the outcome
of every external call, and returns the trace of calls/prints made together
with the process outcome (exit zero, log.Fatal, or a runtime panic from a
nil-pointer dereference).  Instants are nanoseconds since the Unix epoch as
Int, as in Go's time package.
-/

namespace GoAzure

/-- A Go error value as the programs distinguish them: either an
`*azcore.ResponseError` (with HTTP status code and Azure error code), or
any other error (wrapped transport errors etc.).  `errors.As` on the
response-error target succeeds exactly on the first constructor. -/
inductive GoError where
  | respErr (statusCode : Nat) (errorCode : String)
  | other (msg : String)
deriving DecidableEq, Repr

/-- Process outcome: normal exit (code 0), `log.Fatal` (exit 1), or a
runtime panic (nil-pointer dereference, exit 2).  Both `fatal` and
`panicked` are non-zero exits. -/
inductive Outcome where
  | exitZero
  | fatal
  | panicked
deriving DecidableEq, Repr

/-- True on the outcomes with a non-zero process exit status. -/
def Outcome.nonZeroExit : Outcome → Bool
  | .exitZero => false
  | .fatal => true
  | .panicked => true

/-- `sas.ContainerPermissions` from the blob SDK used in `genSaSToken`
(src/main.go lines 40): the boolean permission fields the program sets or
leaves at their zero value. -/
structure ContainerPermissions where
  read : Bool
  add : Bool
  create : Bool
  write : Bool
  delete : Bool
  list : Bool
deriving DecidableEq, Repr

/-- `sas.AccountPermissions` from the blob SDK as used in `printSasToken`
(src/main.go lines 61-63). -/
structure AccountPermissions where
  read : Bool
  write : Bool
  delete : Bool
  list : Bool
  add : Bool
  create : Bool
deriving DecidableEq, Repr

/-- The `sas.BlobSignatureValues` literal built in `genSaSToken`
(src/main.go lines 36-42): protocol, the two window instants (ns), the
container permission set and the container name. -/
structure BlobSignatureValues where
  protocol : String
  startTime : Int
  expiryTime : Int
  permissions : ContainerPermissions
  containerName : String
deriving DecidableEq, Repr

/-- The account-SAS request submitted by `printSasToken` via
`GetSASURL` (src/main.go lines 58-66): resource types, permissions, the
expiry argument and the option's start time. -/
structure AccountSASRequest where
  resourceTypesContainer : Bool
  permissions : AccountPermissions
  expiryTime : Int
  startTime : Int
deriving DecidableEq, Repr

/-- Fixed container name of src/main.go line 26:
`"golang-container-" + "test"` (the random suffix is commented out there). -/
def containerNameBlob : String := "golang-container-" ++ "test"

/-- 15 minutes in nanoseconds (`15 * time.Minute`). -/
def fifteenMinutesNs : Int := 15 * 60 * 1000000000

/-- 24 hours in nanoseconds (`24 * time.Hour`). -/
def dayNs : Int := 24 * 60 * 60 * 1000000000

/-- 2 seconds in nanoseconds (`2 * time.Second`). -/
def twoSecondsNs : Int := 2 * 1000000000

/-- The signing request constructed by `genSaSToken` (src/main.go lines
36-42) as a function of the two successive `time.Now()` captures `t1`
(StartTime) and `t2` (the capture the 15-minute expiry is added to):
HTTPS protocol, start `t1`, expiry `t2 + 15min`, read+list container
permissions, the fixed container name. -/
def genSaSTokenRequest (t1 t2 : Int) : BlobSignatureValues :=
  { protocol := "https"
    startTime := t1
    expiryTime := t2 + fifteenMinutesNs
    permissions :=
      { read := true, add := false, create := false
        write := false, delete := false, list := true }
    containerName := containerNameBlob }

/-- The account-SAS request constructed by `printSasToken` (src/main.go
lines 58-66) as a function of the two `time.Now()` captures: `t1` feeds the
options' start time (`+ 2s`, line 58) and `t2` the expiry argument
(`+ 24h`, line 64).  The permission set requests create, delete, list and
add. -/
def printSasTokenRequest (t1 t2 : Int) : AccountSASRequest :=
  { resourceTypesContainer := true
    permissions :=
      { read := false, write := false, delete := true
        list := true, add := true, create := true }
    expiryTime := t2 + dayNs
    startTime := t1 + twoSecondsNs }

/-- Go's `Time.Round(time.Microsecond)` on a nonnegative nanosecond
instant: round to the nearest multiple of 1000 ns, halves away from zero.
`UTC()` does not change the instant and is omitted. -/
def roundMicro (t : Int) : Int :=
  t - t % 1000 + (if 500 ≤ t % 1000 then 1000 else 0)

/-- The (start, expiry) instants of the `ListAccountSAS` request built in
the armstorage block of src/main.go (lines 149-161) from the single
capture `t`: `SharedAccessStartTime = t.Round(µs).UTC()` and
`SharedAccessExpiryTime = (t + 24h).Round(µs).UTC()`. -/
def listAccountSASWindow (t : Int) : Int × Int :=
  (roundMicro t, roundMicro (t + dayNs))

/-- A Go `time.Time` in a fixed-offset location: local wall-clock fields
(year, month, day, hour, minute, second, nanoseconds) plus the location's
UTC offset in seconds.  The absolute instant is derived by `goInstant`. -/
structure GoTime where
  year : Nat
  month : Nat
  day : Nat
  hour : Nat
  minute : Nat
  second : Nat
  nanos : Nat
  offsetSec : Int
deriving DecidableEq, Repr

/-- Days since 1970-01-01 of the civil date (y, m, d), proleptic Gregorian
(standard civil-from-days algorithm, as used by Go's date arithmetic).
Valid for y ≥ 1, which covers every date these programs handle. -/
def daysFromCivil (y m d : Nat) : Int :=
  let y' : Nat := y - (if m ≤ 2 then 1 else 0)
  let era : Nat := y' / 400
  let yoe : Nat := y' - era * 400
  let doy : Nat := (153 * (m + (if m > 2 then 0 else 12) - 3) + 2) / 5 + d - 1
  let doe : Nat := yoe * 365 + yoe / 4 - yoe / 100 + doy
  (era * 146097 + doe : Int) - 719468

/-- Civil date (y, m, d) of a count of days since 1970-01-01 (inverse of
`daysFromCivil`; results with positive years only, which covers every
instant these programs handle). -/
def civilFromDays (z : Int) : Nat × Nat × Nat :=
  let z' : Int := z + 719468
  let era : Int := z'.fdiv 146097
  let doe : Nat := (z' - era * 146097).toNat
  let yoe : Nat := (doe - doe / 1460 + doe / 36524 - doe / 146096) / 365
  let y : Int := (yoe : Int) + era * 400
  let doy : Nat := doe - (365 * yoe + yoe / 4 - yoe / 100)
  let mp : Nat := (5 * doy + 2) / 153
  let d : Nat := doy - (153 * mp + 2) / 5 + 1
  let m : Nat := mp + (if mp < 10 then 3 else 0) - (if mp < 10 then 0 else 9)
  ((y + (if m ≤ 2 then 1 else 0)).toNat, m, d)

/-- Absolute instant of a `GoTime` in nanoseconds since the Unix epoch:
the wall clock read as seconds-since-epoch, minus the UTC offset. -/
def goInstant (t : GoTime) : Int :=
  ((daysFromCivil t.year t.month t.day) * 86400
      + (t.hour * 3600 + t.minute * 60 + t.second : Nat)
      - t.offsetSec) * 1000000000 + t.nanos

/-- The `GoTime` in the fixed-offset location `offset` whose absolute
instant is `ns` nanoseconds since the epoch. -/
def ofInstant (ns offset : Int) : GoTime :=
  let wallNs : Int := ns + offset * 1000000000
  let nsec : Nat := (wallNs % 1000000000).toNat
  let secs : Int := (wallNs - wallNs % 1000000000) / 1000000000
  let days : Int := secs.fdiv 86400
  let sod : Nat := (secs - days * 86400).toNat
  let ymd := civilFromDays days
  { year := ymd.1, month := ymd.2.1, day := ymd.2.2
    hour := sod / 3600, minute := sod % 3600 / 60, second := sod % 60
    nanos := nsec, offsetSec := offset }

/-- Go's `Time.Add`: shift the instant, keep the location. -/
def addNanos (t : GoTime) (delta : Int) : GoTime :=
  ofInstant (goInstant t + delta) t.offsetSec

/-- The zero `time.Time` (January 1, year 1, 00:00:00 UTC), the value a
discarded `time.Parse` error leaves behind (`t, _ := time.Parse(...)`). -/
def goZeroTime : GoTime :=
  { year := 1, month := 1, day := 1, hour := 0, minute := 0, second := 0
    nanos := 0, offsetSec := 0 }

/-- ASCII digit character of a value < 10. -/
def digitChar (n : Nat) : Char := Char.ofNat (48 + n)

/-- Two-digit zero-padded decimal (Go layout element "01"/"02"/"15"...). -/
def pad2 (n : Nat) : List Char := [digitChar (n / 10 % 10), digitChar (n % 10)]

/-- Four-digit zero-padded decimal (Go layout element "2006"). -/
def pad4 (n : Nat) : List Char :=
  [digitChar (n / 1000 % 10), digitChar (n / 100 % 10),
   digitChar (n / 10 % 10), digitChar (n % 10)]

/-- Fixed-width zero-padded decimal, most significant digit first. -/
def padN (width n : Nat) : List Char :=
  (List.range width).reverse.map (fun i => digitChar (n / 10 ^ i % 10))

/-- Drop trailing '0' characters (Go's "9"-run fractional layout trims
trailing zeros). -/
def dropTrailingZeros (cs : List Char) : List Char :=
  (cs.reverse.dropWhile (fun c => c = '0')).reverse

/-- Go fractional-second layout ".999999999" applied to a nanosecond
count: empty if zero, otherwise a dot and the 9 digits with trailing
zeros removed. -/
def frac9 (n : Nat) : List Char :=
  if n = 0 then [] else '.' :: dropTrailingZeros (padN 9 n)

/-- Go fractional-second layout ".9999999" (7 digits, used by the layout
string "2006-01-02T03:04:05.9999999Z" in part_000): the nanosecond count
truncated to 100ns units, trailing zeros removed, empty if zero. -/
def frac7 (n : Nat) : List Char :=
  if n / 100 = 0 then [] else '.' :: dropTrailingZeros (padN 7 (n / 100))

/-- Go zone layout element "Z07:00": the literal 'Z' for offset zero,
otherwise a sign and the offset as zero-padded hours:minutes. -/
def zoneSuffix (offset : Int) : List Char :=
  if offset = 0 then ['Z']
  else
    let mins : Nat := offset.natAbs / 60
    (if 0 < offset then '+' else '-') :: pad2 (mins / 60) ++ ':' :: pad2 (mins % 60)

/-- `Format(time.RFC3339Nano)` — layout "2006-01-02T15:04:05.999999999Z07:00" —
of a `GoTime`, as a character list: local wall clock in 24-hour form,
trimmed fraction, "Z" or signed offset. -/
def fmtRFC3339Nano (t : GoTime) : List Char :=
  pad4 t.year ++ '-' :: pad2 t.month ++ '-' :: pad2 t.day
    ++ 'T' :: pad2 t.hour ++ ':' :: pad2 t.minute ++ ':' :: pad2 t.second
    ++ frac9 t.nanos ++ zoneSuffix t.offsetSec

/-- `Format("2006-01-02T03:04:05.9999999Z")` as used in part_000's second
variant: the hour in 12-hour form without an AM/PM marker ("03": 0 and 12
print as "12"), a 7-digit trimmed fraction, and a literal 'Z' (a lone 'Z'
in a Go layout is not a zone element), with no offset printed. -/
def fmt12Z (t : GoTime) : List Char :=
  let h12 : Nat := if t.hour % 12 = 0 then 12 else t.hour % 12
  pad4 t.year ++ '-' :: pad2 t.month ++ '-' :: pad2 t.day
    ++ 'T' :: pad2 h12 ++ ':' :: pad2 t.minute ++ ':' :: pad2 t.second
    ++ frac7 t.nanos ++ ['Z']

/-- Decimal digit test. -/
def isDigit (c : Char) : Bool := '0' ≤ c && c ≤ '9'

/-- Value of a decimal digit character. -/
def digVal (c : Char) : Nat := c.toNat - 48

/-- Read exactly two decimal digits. -/
def read2 : List Char → Option (Nat × List Char)
  | a :: b :: rest =>
    if isDigit a && isDigit b then some (digVal a * 10 + digVal b, rest) else none
  | _ => none

/-- Read exactly four decimal digits. -/
def read4 : List Char → Option (Nat × List Char)
  | a :: b :: c :: d :: rest =>
    if isDigit a && isDigit b && isDigit c && isDigit d then
      some (digVal a * 1000 + digVal b * 100 + digVal c * 10 + digVal d, rest)
    else none
  | _ => none

/-- Expect a specific character. -/
def expectChar (c : Char) : List Char → Option (List Char)
  | x :: rest => if x = c then some rest else none
  | _ => none

/-- Read an optional fractional second: absent, or a dot followed by 1 to 9
digits; the value is in nanoseconds (digits are scaled to 9 places, as Go's
parser does for a "9"-run fractional layout). -/
def readFrac : List Char → Option (Nat × List Char)
  | '.' :: rest =>
    let ds := rest.takeWhile isDigit
    if ds.length = 0 || 9 < ds.length then none
    else
      some ((ds.foldl (fun acc c => acc * 10 + digVal c) 0) * 10 ^ (9 - ds.length),
        rest.dropWhile isDigit)
  | cs => some (0, cs)

/-- Read the zone suffix of the RFC3339 layout and require the end of the
input: 'Z' for UTC, or a signed hours:minutes offset.  Anything else —
including trailing characters after the zone — is a parse error. -/
def readZone : List Char → Option Int
  | ['Z'] => some 0
  | '+' :: rest => do
    let (hh, r1) ← read2 rest
    let r2 ← expectChar ':' r1
    let (mm, r3) ← read2 r2
    if r3.isEmpty && hh < 24 && mm < 60 then some ((hh * 3600 + mm * 60 : Nat) : Int)
    else none
  | '-' :: rest => do
    let (hh, r1) ← read2 rest
    let r2 ← expectChar ':' r1
    let (mm, r3) ← read2 r2
    if r3.isEmpty && hh < 24 && mm < 60 then some (-((hh * 3600 + mm * 60 : Nat) : Int))
    else none
  | _ => none

/-- `time.Parse(time.RFC3339Nano, s)`: "YYYY-MM-DDTHH:MM:SS", optional
fraction, then 'Z' or a signed offset, nothing trailing.  Field ranges are
checked as Go does (month 1-12, day 1-31, hour < 24, minute/second < 60).
Returns `none` on any violation of the layout. -/
def parseRFC3339Nano (cs : List Char) : Option GoTime := do
  let (y, r1) ← read4 cs
  let r2 ← expectChar '-' r1
  let (mo, r3) ← read2 r2
  let r4 ← expectChar '-' r3
  let (d, r5) ← read2 r4
  let r6 ← expectChar 'T' r5
  let (h, r7) ← read2 r6
  let r8 ← expectChar ':' r7
  let (mi, r9) ← read2 r8
  let r10 ← expectChar ':' r9
  let (s, r11) ← read2 r10
  let (ns, r12) ← readFrac r11
  let off ← readZone r12
  if 1 ≤ mo && mo ≤ 12 && 1 ≤ d && d ≤ 31 && h < 24 && mi < 60 && s < 60 then
    some { year := y, month := mo, day := d, hour := h, minute := mi
           second := s, nanos := ns, offsetSec := off }
  else none

/-- `strings.Split(s, "+")[0]`: the characters before the first '+' (the
whole string when no '+' occurs). -/
def splitFirstPlus (cs : List Char) : List Char :=
  cs.takeWhile (fun c => c ≠ '+')

/-- The `armstorage.AccountSasParameters` literal passed to
`ListAccountSAS` by the part_000 variants: key name, permission string
(`armstorage.PermissionsR` is "r"), protocols, resource types, services,
and the access-window instants. -/
structure AccountSasParameters where
  keyToSign : String
  permissions : String
  protocols : String
  resourceTypes : String
  services : String
  sharedAccessStartTime : GoTime
  sharedAccessExpiryTime : GoTime
deriving DecidableEq, Repr

/-- The `ListAccountSAS` parameters built by part_000's second variant
(lines 201-216) from the single capture `t = time.Now()`: the expiry is
`t + 24h` formatted with the 12-hour layout "2006-01-02T03:04:05.9999999Z"
and re-parsed with RFC3339Nano, the discarded parse error defaulting to the
zero time; the start is `t` passed directly. -/
def armV2SASParams (t : GoTime) : AccountSasParameters :=
  let tomorrow := fmt12Z (addNanos t dayNs)
  { keyToSign := "key1"
    permissions := "r"
    protocols := "https,http"
    resourceTypes := "s"
    services := "b"
    sharedAccessStartTime := t
    sharedAccessExpiryTime := (parseRFC3339Nano tomorrow).getD goZeroTime }

/-- The `ListAccountSAS` parameters built by part_000's third variant
(lines 351-366) from the capture `t`: both instants are formatted with
RFC3339Nano, truncated at the first '+', suffixed with 'Z'
(`strings.Split(..., "+")[0] + "Z"`), and re-parsed with RFC3339Nano, the
discarded parse errors defaulting to the zero time. -/
def armV3SASParams (t : GoTime) : AccountSasParameters :=
  let today := splitFirstPlus (fmtRFC3339Nano t) ++ ['Z']
  let tomorrow := splitFirstPlus (fmtRFC3339Nano (addNanos t dayNs)) ++ ['Z']
  { keyToSign := "key1"
    permissions := "r"
    protocols := "https,http"
    resourceTypes := "s"
    services := "b"
    sharedAccessStartTime := (parseRFC3339Nano today).getD goZeroTime
    sharedAccessExpiryTime := (parseRFC3339Nano tomorrow).getD goZeroTime }

/-- The start instant part_000's third variant sends to the signer, as a
function of the captured current time. -/
def v3StartParam (t : GoTime) : GoTime :=
  (armV3SASParams t).sharedAccessStartTime

/-- An observable step of a run: a printed line, a remote management call
(container Get / Create, ListAccountSAS with its parameters), or the
construction-and-signing of a blob SAS request. -/
inductive Event where
  | println (s : String)
  | callGetContainer
  | callCreateContainer
  | callListAccountSAS (params : AccountSasParameters)
  | signBlobSAS (req : BlobSignatureValues)
deriving DecidableEq, Repr

/-- True on the events that interact with the Azure SDK (remote calls and
SAS signing); `println` is the only non-call event. -/
def isCallEvent : Event → Bool
  | .println _ => false
  | _ => true

/-- The result of a modelled run: the ordered trace of events and the
process outcome. -/
structure RunResult where
  trace : List Event
  outcome : Outcome

/-- Number of container-create calls in a trace. -/
def countCreate (tr : List Event) : Nat :=
  tr.countP (fun e => e = Event.callCreateContainer)

/-- Number of container-lookup (Get) calls in a trace. -/
def countGet (tr : List Event) : Nat :=
  tr.countP (fun e => e = Event.callGetContainer)

/-- The `armstorage.BlobContainer` of a management response; `ID` is a
string pointer, hence an `Option`. -/
structure BlobContainer where
  id : Option String
deriving DecidableEq, Repr

/-- The `azblob.CreateContainerResponse`; `Version` is a string pointer.
Its zero value (returned alongside a non-nil error) has `version = none`. -/
structure CreateContainerResponse where
  version : Option String
deriving DecidableEq, Repr

/-- External collaborators of src/main.go's `main`: the environment, the
outcomes of local credential/client construction, the `CreateContainer`
call, the `SignWithSharedKey` signing step inside `genSaSToken`, and the
clock (successive `time.Now()` captures, in call order). -/
structure BlobWorld where
  env : String → String
  sharedKeyCredErr : Option GoError
  newClientErr : Option GoError
  createContainer : Except GoError CreateContainerResponse
  signErr : Option GoError
  clock : Nat → Int

/-- `genSaSToken` (src/main.go lines 34-50): build the signature values
from the next two clock captures, sign; `log.Fatal` on a signing error,
otherwise print the SAS URL and return.  `tr` is the trace so far and `k`
the index of the next clock capture. -/
def genSaSToken (w : BlobWorld) (k : Nat) (tr : List Event) : RunResult :=
  let req := genSaSTokenRequest (w.clock k) (w.clock (k + 1))
  match w.signErr with
  | some _ => ⟨tr ++ [Event.signBlobSAS req], Outcome.fatal⟩
  | none => ⟨tr ++ [Event.signBlobSAS req, Event.println "SAS URL list files"],
      Outcome.exitZero⟩

/-- `main` of src/main.go (lines 75-109; every branch of the
`CreateContainer` error analysis returns, so lines 110-176 are
unreachable): check `AZURE_ACCOUNT_KEY`, build the shared-key credential
and client, call `CreateContainer`, then branch on
`errors.As(err, &blobErr)`: a response error with code
"ContainerAlreadyExists" reports the container as existing and signs; any
other response error is fatal; otherwise — including a non-nil error that
is not a response error, for which `blob_resp` is the zero response — the
success branch dereferences `*blob_resp.Version` (a panic when nil) and
signs. -/
def mainBlob (w : BlobWorld) : RunResult :=
  let tr0 := [Event.println "Starting azure golang main."]
  if (w.env "AZURE_ACCOUNT_KEY").length = 0 then ⟨tr0, Outcome.fatal⟩
  else
    match w.sharedKeyCredErr with
    | some _ => ⟨tr0, Outcome.fatal⟩
    | none =>
      match w.newClientErr with
      | some _ => ⟨tr0, Outcome.fatal⟩
      | none =>
        let tr1 := tr0 ++ [Event.callCreateContainer]
        match w.createContainer with
        | Except.error (GoError.respErr _ ec) =>
          if ec = "ContainerAlreadyExists" then
            genSaSToken w 0 (tr1 ++ [Event.println "Blob container already exists"])
          else ⟨tr1, Outcome.fatal⟩
        | Except.error (GoError.other _) => ⟨tr1, Outcome.panicked⟩
        | Except.ok resp =>
          match resp.version with
          | none => ⟨tr1, Outcome.panicked⟩
          | some v =>
            genSaSToken w 0
              (tr1 ++ [Event.println ("Created blob container vers " ++ v)])

/-- External collaborators of the part_000 mains: the environment, the
outcomes of credential/factory construction, the first Get, the Create,
the confirmation Get, the `ListAccountSAS` call (its `AccountSasToken`
field is a string pointer), and the clock (successive `time.Now()`
captures as local times). -/
structure ArmWorld where
  env : String → String
  defaultCredErr : Option GoError
  clientFactoryErr : Option GoError
  get1 : Except GoError BlobContainer
  createRes : Except GoError BlobContainer
  get2 : Except GoError BlobContainer
  listSAS : Except GoError (Option String)
  clock : Nat → GoTime

/-- The create-then-verify block shared verbatim by the three part_000
mains (the body of the 404 branch): print the not-found diagnostics, call
Create (`log.Fatal` on error), print the new container's ID (dereferencing
the `ID` pointer), re-run Get (`log.Fatal` on error), print the
double-check ID, then continue with `cont` (the rest of the 404 branch,
which differs per variant). -/
def afterNotFound (w : ArmWorld) (ec : String) (tr : List Event)
    (cont : List Event → RunResult) : RunResult :=
  let tr2 := tr ++ [Event.println ("Blob container could not be found, return code: " ++ ec),
    Event.println "Creating it now...", Event.callCreateContainer]
  match w.createRes with
  | Except.error _ => ⟨tr2, Outcome.fatal⟩
  | Except.ok c1 =>
    match c1.id with
    | none => ⟨tr2, Outcome.panicked⟩
    | some id1 =>
      let tr3 := tr2 ++ [Event.println ("Created blob container: " ++ id1),
        Event.callGetContainer]
      match w.get2 with
      | Except.error _ => ⟨tr3, Outcome.fatal⟩
      | Except.ok c2 =>
        match c2.id with
        | none => ⟨tr3, Outcome.panicked⟩
        | some id2 =>
          cont (tr3 ++ [Event.println ("Double check, blob container ID: " ++ id2)])

/-- The SAS block of part_000's second variant (lines 201-223): capture
`time.Now()`, print today/tomorrow in the 12-hour layout, call
`ListAccountSAS` with `armV2SASParams`; `log.Fatal` on error, dereference
the `AccountSasToken` pointer (panic when nil), print the token, exit. -/
def sasBlockV2 (w : ArmWorld) (tr : List Event) : RunResult :=
  let t := w.clock 0
  let tr4 := tr ++ [Event.println ("today " ++ String.mk (fmt12Z t)),
    Event.println ("tomorrow " ++ String.mk (fmt12Z (addNanos t dayNs))),
    Event.callListAccountSAS (armV2SASParams t)]
  match w.listSAS with
  | Except.error _ => ⟨tr4, Outcome.fatal⟩
  | Except.ok none => ⟨tr4, Outcome.panicked⟩
  | Except.ok (some tok) =>
    ⟨tr4 ++ [Event.println ("SAS Token " ++ tok)], Outcome.exitZero⟩

/-- The SAS block of part_000's third variant (lines 351-373): as
`sasBlockV2` but with both instants put through the RFC3339Nano
format / truncate-at-'+' / append-'Z' / re-parse round trip
(`armV3SASParams`). -/
def sasBlockV3 (w : ArmWorld) (tr : List Event) : RunResult :=
  let t := w.clock 0
  let tr4 := tr ++ [Event.println ("today " ++ String.mk (splitFirstPlus (fmtRFC3339Nano t) ++ ['Z'])),
    Event.println ("tomorrow " ++ String.mk (splitFirstPlus (fmtRFC3339Nano (addNanos t dayNs)) ++ ['Z'])),
    Event.callListAccountSAS (armV3SASParams t)]
  match w.listSAS with
  | Except.error _ => ⟨tr4, Outcome.fatal⟩
  | Except.ok none => ⟨tr4, Outcome.panicked⟩
  | Except.ok (some tok) =>
    ⟨tr4 ++ [Event.println ("SAS Token " ++ tok)], Outcome.exitZero⟩

/-- `main` of part_000's first variant (lines 31-84): check
`AZURE_SUBSCRIPTION_ID`, build credential and client factory, call Get;
the error analysis is wrapped in `if err != nil`, so a non-nil error that
is not a response error hits the outer `log.Fatal(err)`; a 404 response
error runs the create-then-verify block and exits; any other response
error is fatal; on lookup success the container's ID is printed
(dereferencing the pointer) and the program exits zero. -/
def mainArm1 (w : ArmWorld) : RunResult :=
  let tr0 := [Event.println "Starting azure golang main."]
  if (w.env "AZURE_SUBSCRIPTION_ID").length = 0 then ⟨tr0, Outcome.fatal⟩
  else
    match w.defaultCredErr with
    | some _ => ⟨tr0, Outcome.fatal⟩
    | none =>
      match w.clientFactoryErr with
      | some _ => ⟨tr0, Outcome.fatal⟩
      | none =>
        let tr1 := tr0 ++ [Event.callGetContainer]
        match w.get1 with
        | Except.error (GoError.respErr sc ec) =>
          if sc = 404 then
            afterNotFound w ec tr1 (fun tr => ⟨tr, Outcome.exitZero⟩)
          else ⟨tr1 ++ [Event.println "Container Get status code"], Outcome.fatal⟩
        | Except.error (GoError.other _) => ⟨tr1, Outcome.fatal⟩
        | Except.ok c =>
          match c.id with
          | none => ⟨tr1, Outcome.panicked⟩
          | some id0 =>
            ⟨tr1 ++ [Event.println ("Blob container already exists, id: " ++ id0)],
              Outcome.exitZero⟩

/-- `main` of part_000's second variant (lines 158-232): as `mainArm1` but
without the `if err != nil` wrapper — `errors.As` alone selects the
response-error branch, so a non-nil error that is not a response error
falls into the success branch, which dereferences the nil
`blobContainer.ID` pointer (panic) — and with the variant-2 SAS block
after the create-then-verify. -/
def mainArm2 (w : ArmWorld) : RunResult :=
  let tr0 := [Event.println "Starting azure golang main."]
  if (w.env "AZURE_SUBSCRIPTION_ID").length = 0 then ⟨tr0, Outcome.fatal⟩
  else
    match w.defaultCredErr with
    | some _ => ⟨tr0, Outcome.fatal⟩
    | none =>
      match w.clientFactoryErr with
      | some _ => ⟨tr0, Outcome.fatal⟩
      | none =>
        let tr1 := tr0 ++ [Event.callGetContainer]
        match w.get1 with
        | Except.error (GoError.respErr sc ec) =>
          if sc = 404 then afterNotFound w ec tr1 (sasBlockV2 w)
          else ⟨tr1 ++ [Event.println "Container Get status code"], Outcome.fatal⟩
        | Except.error (GoError.other _) => ⟨tr1, Outcome.panicked⟩
        | Except.ok c =>
          match c.id with
          | none => ⟨tr1, Outcome.panicked⟩
          | some id0 =>
            ⟨tr1 ++ [Event.println ("Blob container already exists, id: " ++ id0)],
              Outcome.exitZero⟩

/-- `main` of part_000's third variant (lines 308-386): the `if err != nil`
wrapper of variant 1 together with the variant-3 SAS block. -/
def mainArm3 (w : ArmWorld) : RunResult :=
  let tr0 := [Event.println "Starting azure golang main."]
  if (w.env "AZURE_SUBSCRIPTION_ID").length = 0 then ⟨tr0, Outcome.fatal⟩
  else
    match w.defaultCredErr with
    | some _ => ⟨tr0, Outcome.fatal⟩
    | none =>
      match w.clientFactoryErr with
      | some _ => ⟨tr0, Outcome.fatal⟩
      | none =>
        let tr1 := tr0 ++ [Event.callGetContainer]
        match w.get1 with
        | Except.error (GoError.respErr sc ec) =>
          if sc = 404 then afterNotFound w ec tr1 (sasBlockV3 w)
          else ⟨tr1 ++ [Event.println "Container Get status code"], Outcome.fatal⟩
        | Except.error (GoError.other _) => ⟨tr1, Outcome.fatal⟩
        | Except.ok c =>
          match c.id with
          | none => ⟨tr1, Outcome.panicked⟩
          | some id0 =>
            ⟨tr1 ++ [Event.println ("Blob container already exists, id: " ++ id0)],
              Outcome.exitZero⟩

/-- A "not found" error in the sense of the programs: a response error
with HTTP status 404 (`http.StatusNotFound`). -/
def isNotFound : GoError → Bool
  | GoError.respErr sc _ => sc = 404
  | GoError.other _ => false

/-- Read-only check on the permission sets of the two kinds of signing
events: a blob SAS request must set none of create/delete/add/write, and
an account-SAS request's permission string must be exactly "r"; non-sign
events pass vacuously. -/
def signReadOnlyB : Event → Bool
  | Event.signBlobSAS req =>
    !req.permissions.create && !req.permissions.delete
      && !req.permissions.add && !req.permissions.write
  | Event.callListAccountSAS p => p.permissions = "r"
  | _ => true

/-- The constant `letterBytes` ("abcdefghijklmnopqrstuvwxyz"). -/
def letterBytes : String := "abcdefghijklmnopqrstuvwxyz"

/-- `RandStringBytes(n)`: a byte slice of length `n`, each byte
`letterBytes[rand.Intn(len(letterBytes))]`, returned as a string.  The
random source is the stream `r` of values of `rand.Intn(26)`, which by
contract lie in `[0, 26)`. -/
def randStringBytes (n : Nat) (r : Nat → Fin 26) : String :=
  String.mk ((List.range n).map fun i => letterBytes.data.getD (r i).val 'a')

/-- The `containerName` of the part_000 variants (line 23):
`"golang-container-" + RandStringBytes(4)`. -/
def containerNameArm (r : Nat → Fin 26) : String :=
  "golang-container-" ++ randStringBytes 4 r

/-- A src/main.go world for C4: key set, local construction succeeds,
`CreateContainer` reports the container as already existing, signing
succeeds, every clock capture is the epoch. -/
def c4World : BlobWorld :=
  { env := fun _ => "key"
    sharedKeyCredErr := none
    newClientErr := none
    createContainer := Except.error (GoError.respErr 409 "ContainerAlreadyExists")
    signErr := none
    clock := fun _ => 0 }

/-- A src/main.go world for C5 whose two captures put the second `Now`
before the first, making the constructed window non-positive. -/
def c5World : BlobWorld :=
  { env := fun _ => "key"
    sharedKeyCredErr := none
    newClientErr := none
    createContainer := Except.error (GoError.respErr 409 "ContainerAlreadyExists")
    signErr := none
    clock := fun n => if n = 0 then dayNs else 0 }

/-- A src/main.go world for C9: `CreateContainer` fails with a transport
error that is not an `*azcore.ResponseError`. -/
def c9World : BlobWorld :=
  { env := fun _ => "key"
    sharedKeyCredErr := none
    newClientErr := none
    createContainer := Except.error (GoError.other "connection reset")
    signErr := none
    clock := fun _ => 0 }

/-- A concrete capture for C7: 2023-09-16 13:42:03.1567373 local time in a
zone two hours east of UTC. -/
def c7Time : GoTime :=
  { year := 2023, month := 9, day := 16, hour := 13, minute := 42, second := 3
    nanos := 156737300, offsetSec := 7200 }

/-- The same wall clock as `c7Time` but in UTC (offset zero), for C7's
failing-parse case. -/
def c7TimeUTC : GoTime :=
  { year := 2023, month := 9, day := 16, hour := 13, minute := 42, second := 3
    nanos := 156737300, offsetSec := 0 }

/-- A src/main.go world for C1's counterexample: the container is already
present remotely, so `CreateContainer` fails with
"ContainerAlreadyExists". -/
def c1BlobWorld : BlobWorld :=
  { env := fun _ => "key"
    sharedKeyCredErr := none
    newClientErr := none
    createContainer := Except.error (GoError.respErr 409 "ContainerAlreadyExists")
    signErr := none
    clock := fun _ => 0 }

/-- A part_000 world for C1's witness: the lookup finds the container. -/
def c1ArmWorld : ArmWorld :=
  { env := fun _ => "sub"
    defaultCredErr := none
    clientFactoryErr := none
    get1 := Except.ok { id := some "cid" }
    createRes := Except.error (GoError.other "unused")
    get2 := Except.error (GoError.other "unused")
    listSAS := Except.error (GoError.other "unused")
    clock := fun _ => goZeroTime }

/-- A part_000 world for C2's witness: lookup 404, create and confirmation
lookup succeed. -/
def c2ArmWorld : ArmWorld :=
  { env := fun _ => "sub"
    defaultCredErr := none
    clientFactoryErr := none
    get1 := Except.error (GoError.respErr 404 "ContainerNotFound")
    createRes := Except.ok { id := some "cid" }
    get2 := Except.ok { id := some "cid" }
    listSAS := Except.error (GoError.other "unused")
    clock := fun _ => goZeroTime }

/-- A part_000 world for C3's witness, part 1: the lookup fails with a 403
response error. -/
def c3ArmWorldA : ArmWorld :=
  { env := fun _ => "sub"
    defaultCredErr := none
    clientFactoryErr := none
    get1 := Except.error (GoError.respErr 403 "AuthorizationFailure")
    createRes := Except.error (GoError.other "unused")
    get2 := Except.error (GoError.other "unused")
    listSAS := Except.error (GoError.other "unused")
    clock := fun _ => goZeroTime }

/-- A part_000 world for C3's witness, part 2: lookup 404, then the create
call fails. -/
def c3ArmWorldB : ArmWorld :=
  { env := fun _ => "sub"
    defaultCredErr := none
    clientFactoryErr := none
    get1 := Except.error (GoError.respErr 404 "ContainerNotFound")
    createRes := Except.error (GoError.other "boom")
    get2 := Except.error (GoError.other "unused")
    listSAS := Except.error (GoError.other "unused")
    clock := fun _ => goZeroTime }

/-- A part_000 world for C3's witness, part 3: lookup 404, create succeeds,
then the confirmation lookup fails. -/
def c3ArmWorldC : ArmWorld :=
  { env := fun _ => "sub"
    defaultCredErr := none
    clientFactoryErr := none
    get1 := Except.error (GoError.respErr 404 "ContainerNotFound")
    createRes := Except.ok { id := some "cid" }
    get2 := Except.error (GoError.other "boom")
    listSAS := Except.error (GoError.other "unused")
    clock := fun _ => goZeroTime }

/-- A src/main.go world for C3's witness, part 4: `CreateContainer` fails
with a response error other than "ContainerAlreadyExists". -/
def c3BlobWorld : BlobWorld :=
  { env := fun _ => "key"
    sharedKeyCredErr := none
    newClientErr := none
    createContainer := Except.error (GoError.respErr 403 "AuthorizationFailure")
    signErr := none
    clock := fun _ => 0 }

/-- A src/main.go world for C8's witness: the account-key variable is
unset. -/
def c8BlobWorld : BlobWorld :=
  { env := fun _ => ""
    sharedKeyCredErr := none
    newClientErr := none
    createContainer := Except.error (GoError.other "unused")
    signErr := none
    clock := fun _ => 0 }

/-- A part_000 world for C8's witness: the subscription-id variable is
unset. -/
def c8ArmWorld : ArmWorld :=
  { env := fun _ => ""
    defaultCredErr := none
    clientFactoryErr := none
    get1 := Except.error (GoError.other "unused")
    createRes := Except.error (GoError.other "unused")
    get2 := Except.error (GoError.other "unused")
    listSAS := Except.error (GoError.other "unused")
    clock := fun _ => goZeroTime }

section Claims

/-- Every character produced by indexing `letterBytes` at a position
below 26 is a lowercase ASCII letter. -/
theorem letterBytes_bounds :
    ∀ k : Fin 26,
      'a' ≤ letterBytes.data.getD k.val 'a' ∧ letterBytes.data.getD k.val 'a' ≤ 'z' := by
  decide

/-- C10: for every n ≥ 0, `RandStringBytes(n)` returns a string of length
exactly n whose characters are all lowercase ASCII letters a-z, and the
generated container name is the fixed prefix "golang-container-" followed
by exactly those 4 random lowercase letters. -/
theorem c10_randStringBytes (n : Nat) (r : Nat → Fin 26) :
    (randStringBytes n r).length = n ∧
    (∀ c ∈ (randStringBytes n r).data, 'a' ≤ c ∧ c ≤ 'z') ∧
    (containerNameArm r).data = "golang-container-".data ++ (randStringBytes 4 r).data := by
  refine ⟨?_, ?_, rfl⟩
  · show ((List.range n).map _).length = n
    simp
  · intro c hc
    simp only [randStringBytes, List.mem_map, List.mem_range] at hc
    obtain ⟨i, -, rfl⟩ := hc
    exact letterBytes_bounds (r i)

/-- C4 counterexample: the signing request constructed by `genSaSToken` —
submitted by the program on every run that reaches signing, as the trace
of a concrete already-exists run shows — does not satisfy
expiry = start + 24h: its window is 15 minutes. -/
theorem c4_counterexample :
    (genSaSTokenRequest 0 0).expiryTime ≠ (genSaSTokenRequest 0 0).startTime + dayNs ∧
    Event.signBlobSAS (genSaSTokenRequest 0 0) ∈ (mainBlob c4World).trace := by
  decide

/-- C4 (amended): the blob-SAS request built by `genSaSToken` has a
15-minute window — its expiry is the second captured instant plus 15
minutes — while the `ListAccountSAS` request of src/main.go's armstorage
block does satisfy expiry = start + 24 hours exactly (rounding both
instants to whole microseconds preserves the difference). -/
theorem c4_window_amended :
    (∀ t1 t2 : Int, (genSaSTokenRequest t1 t2).expiryTime = t2 + 15 * 60 * 1000000000) ∧
    (∀ t : Int, (listAccountSASWindow t).2 = (listAccountSASWindow t).1 + dayNs) := by
  constructor
  · intro t1 t2
    rfl
  · intro t
    simp only [listAccountSASWindow, roundMicro, dayNs]
    omega

/-- C5 counterexample: the token-issuing code performs no
windowEnd > windowStart validation — on a run whose two clock captures
produce expiry ≤ start, the signing request is still constructed and
signed and the program exits zero. -/
theorem c5_counterexample :
    Event.signBlobSAS (genSaSTokenRequest dayNs 0) ∈ (mainBlob c5World).trace ∧
    (genSaSTokenRequest dayNs 0).expiryTime ≤ (genSaSTokenRequest dayNs 0).startTime ∧
    (mainBlob c5World).outcome = Outcome.exitZero := by
  decide

/-- C5 (amended): the code never rejects a window; however, whenever the
second clock capture is not earlier than the first (as with a monotonic
clock), the constructed window is strictly positive (15 minutes). -/
theorem c5_amended (t1 t2 : Int) (h : t1 ≤ t2) :
    (genSaSTokenRequest t1 t2).startTime < (genSaSTokenRequest t1 t2).expiryTime := by
  simp only [genSaSTokenRequest, fifteenMinutesNs]
  omega

/-- Witness for C5 (amended) at equal captures. -/
theorem c5_amended_witness :
    (genSaSTokenRequest 0 0).startTime < (genSaSTokenRequest 0 0).expiryTime :=
  c5_amended 0 0 (by decide)

/-- C9: on a run where `CreateContainer` returns a non-nil error that is
not an `*azcore.ResponseError` (a transport error), `errors.As` fails and
src/main.go's success branch dereferences `blob_resp.Version` on the zero
response — a nil-pointer panic, exactly the execution the claim rules
out. -/
theorem c9_nil_deref_on_transport_error :
    (mainBlob c9World).outcome = Outcome.panicked ∧
    countCreate (mainBlob c9World).trace = 1 := by
  decide

/-- C7 counterexample: at a captured time with UTC offset +02:00, the
format / truncate-at-plus / append-Z / re-parse round trip of part_000's
third variant does not return the captured instant. -/
theorem c7_counterexample :
    goInstant (v3StartParam c7Time) ≠ goInstant c7Time := by
  decide

/-- C7 (amended): the start-time string round trip is not the identity: at
a capture with UTC offset +02:00 the parsed start instant is the captured
instant plus the 7200-second offset (the truncation at '+' drops the zone
and the re-parse reads the local wall clock as UTC), and at a capture in
UTC the truncated string ends in "ZZ", the parse fails, and the discarded
error leaves the zero time as the start. -/
theorem c7_roundtrip_amended :
    goInstant (v3StartParam c7Time) = goInstant c7Time + 7200 * 1000000000 ∧
    v3StartParam c7TimeUTC = goZeroTime := by
  decide

/-- C1 counterexample: on a src/main.go run with the container already
present, the program performs no existence lookup at all and does attempt
the create call (which fails with "ContainerAlreadyExists"), even though
it then reports the container as existing and exits zero. -/
theorem c1_counterexample :
    countGet (mainBlob c1BlobWorld).trace = 0 ∧
    countCreate (mainBlob c1BlobWorld).trace = 1 ∧
    Event.println "Blob container already exists" ∈ (mainBlob c1BlobWorld).trace ∧
    (mainBlob c1BlobWorld).outcome = Outcome.exitZero := by
  decide

/-- C1 (amended): in the part_000 lookup-based flow, a run whose lookup
succeeds performs no create call, reports the container as already
existing, and exits zero. -/
theorem c1_no_create_when_found (w : ArmWorld) (c : BlobContainer) (s : String)
    (henv : (w.env "AZURE_SUBSCRIPTION_ID").length ≠ 0)
    (hcred : w.defaultCredErr = none)
    (hfac : w.clientFactoryErr = none)
    (hget : w.get1 = Except.ok c)
    (hid : c.id = some s) :
    countCreate (mainArm1 w).trace = 0 ∧
    Event.println ("Blob container already exists, id: " ++ s) ∈ (mainArm1 w).trace ∧
    (mainArm1 w).outcome = Outcome.exitZero := by
  simp [mainArm1, henv, hcred, hfac, hget, hid, countCreate, List.countP_cons]

/-- Witness for C1 (amended) at a concrete found-container world. -/
theorem c1_no_create_when_found_witness :
    countCreate (mainArm1 c1ArmWorld).trace = 0 ∧
    Event.println ("Blob container already exists, id: " ++ "cid") ∈ (mainArm1 c1ArmWorld).trace ∧
    (mainArm1 c1ArmWorld).outcome = Outcome.exitZero :=
  c1_no_create_when_found c1ArmWorld { id := some "cid" } "cid"
    (by decide) rfl rfl rfl rfl

/-- C2: in the lookup-based flow, a run whose lookup fails with a 404
response error and whose remaining remote calls succeed performs exactly
the call sequence lookup, create, lookup — one create, then the
confirmation lookup — prints the double-check line, and exits zero with
the container existing. -/
theorem c2_create_then_verify (w : ArmWorld) (ec : String)
    (c1 c2 : BlobContainer) (s1 s2 : String)
    (henv : (w.env "AZURE_SUBSCRIPTION_ID").length ≠ 0)
    (hcred : w.defaultCredErr = none)
    (hfac : w.clientFactoryErr = none)
    (hget : w.get1 = Except.error (GoError.respErr 404 ec))
    (hcr : w.createRes = Except.ok c1)
    (hid1 : c1.id = some s1)
    (hget2 : w.get2 = Except.ok c2)
    (hid2 : c2.id = some s2) :
    (mainArm1 w).trace.filter isCallEvent =
      [Event.callGetContainer, Event.callCreateContainer, Event.callGetContainer] ∧
    Event.println ("Double check, blob container ID: " ++ s2) ∈ (mainArm1 w).trace ∧
    (mainArm1 w).outcome = Outcome.exitZero := by
  simp [mainArm1, afterNotFound, henv, hcred, hfac, hget, hcr, hid1, hget2, hid2,
    List.filter, isCallEvent]

/-- Witness for C2 at a concrete not-found world. -/
theorem c2_create_then_verify_witness :
    (mainArm1 c2ArmWorld).trace.filter isCallEvent =
      [Event.callGetContainer, Event.callCreateContainer, Event.callGetContainer] ∧
    Event.println ("Double check, blob container ID: " ++ "cid") ∈ (mainArm1 c2ArmWorld).trace ∧
    (mainArm1 c2ArmWorld).outcome = Outcome.exitZero :=
  c2_create_then_verify c2ArmWorld "ContainerNotFound"
    { id := some "cid" } { id := some "cid" } "cid" "cid"
    (by decide) rfl rfl rfl rfl rfl rfl rfl

/-- C3: in the lookup-based flow (every construction step succeeding),
(1) a lookup failure that is not a 404 response error is fatal and no
create call is ever attempted; (2) a create failure after a 404 lookup is
fatal right there, the call sequence being lookup then create; (3) a
confirmation-lookup failure after a successful create is fatal, the call
sequence being lookup, create, lookup; and (4) in src/main.go, a
`CreateContainer` response error other than "ContainerAlreadyExists" is
fatal. -/
theorem c3_failures_fatal :
    (∀ (w : ArmWorld) (e : GoError),
      (w.env "AZURE_SUBSCRIPTION_ID").length ≠ 0 → w.defaultCredErr = none →
      w.clientFactoryErr = none → w.get1 = Except.error e → isNotFound e = false →
      (mainArm1 w).outcome = Outcome.fatal ∧ countCreate (mainArm1 w).trace = 0) ∧
    (∀ (w : ArmWorld) (ec : String) (e : GoError),
      (w.env "AZURE_SUBSCRIPTION_ID").length ≠ 0 → w.defaultCredErr = none →
      w.clientFactoryErr = none → w.get1 = Except.error (GoError.respErr 404 ec) →
      w.createRes = Except.error e →
      (mainArm1 w).outcome = Outcome.fatal ∧
      (mainArm1 w).trace.filter isCallEvent =
        [Event.callGetContainer, Event.callCreateContainer]) ∧
    (∀ (w : ArmWorld) (ec : String) (c1 : BlobContainer) (s1 : String) (e : GoError),
      (w.env "AZURE_SUBSCRIPTION_ID").length ≠ 0 → w.defaultCredErr = none →
      w.clientFactoryErr = none → w.get1 = Except.error (GoError.respErr 404 ec) →
      w.createRes = Except.ok c1 → c1.id = some s1 → w.get2 = Except.error e →
      (mainArm1 w).outcome = Outcome.fatal ∧
      (mainArm1 w).trace.filter isCallEvent =
        [Event.callGetContainer, Event.callCreateContainer, Event.callGetContainer]) ∧
    (∀ (wb : BlobWorld) (sc : Nat) (ec : String),
      (wb.env "AZURE_ACCOUNT_KEY").length ≠ 0 → wb.sharedKeyCredErr = none →
      wb.newClientErr = none → wb.createContainer = Except.error (GoError.respErr sc ec) →
      ec ≠ "ContainerAlreadyExists" →
      (mainBlob wb).outcome = Outcome.fatal) := by
  refine ⟨?_, ?_, ?_, ?_⟩
  · intro w e henv hcred hfac hget hnf
    match e with
    | GoError.respErr sc ec =>
      simp only [isNotFound, decide_eq_false_iff_not] at hnf
      simp [mainArm1, henv, hcred, hfac, hget, hnf, countCreate, List.countP_cons]
    | GoError.other m =>
      simp [mainArm1, henv, hcred, hfac, hget, countCreate, List.countP_cons]
  · intro w ec e henv hcred hfac hget hcr
    simp [mainArm1, afterNotFound, henv, hcred, hfac, hget, hcr, List.filter, isCallEvent]
  · intro w ec c1 s1 e henv hcred hfac hget hcr hid1 hget2
    simp [mainArm1, afterNotFound, henv, hcred, hfac, hget, hcr, hid1, hget2,
      List.filter, isCallEvent]
  · intro wb sc ec henv hcred hcli hcreate hne
    simp [mainBlob, henv, hcred, hcli, hcreate, hne]

/-- Witness for C3, discharging each of the four parts at a concrete
world: a 403 lookup failure, a create failure, a confirmation-lookup
failure, and a src/main.go authorization failure. -/
theorem c3_failures_fatal_witness :
    ((mainArm1 c3ArmWorldA).outcome = Outcome.fatal ∧
      countCreate (mainArm1 c3ArmWorldA).trace = 0) ∧
    ((mainArm1 c3ArmWorldB).outcome = Outcome.fatal ∧
      (mainArm1 c3ArmWorldB).trace.filter isCallEvent =
        [Event.callGetContainer, Event.callCreateContainer]) ∧
    ((mainArm1 c3ArmWorldC).outcome = Outcome.fatal ∧
      (mainArm1 c3ArmWorldC).trace.filter isCallEvent =
        [Event.callGetContainer, Event.callCreateContainer, Event.callGetContainer]) ∧
    (mainBlob c3BlobWorld).outcome = Outcome.fatal :=
  ⟨c3_failures_fatal.1 c3ArmWorldA (GoError.respErr 403 "AuthorizationFailure")
      (by decide) rfl rfl rfl (by decide),
    c3_failures_fatal.2.1 c3ArmWorldB "ContainerNotFound" (GoError.other "boom")
      (by decide) rfl rfl rfl rfl,
    c3_failures_fatal.2.2.1 c3ArmWorldC "ContainerNotFound" { id := some "cid" } "cid"
      (GoError.other "boom") (by decide) rfl rfl rfl rfl rfl rfl,
    c3_failures_fatal.2.2.2 c3BlobWorld 403 "AuthorizationFailure"
      (by decide) rfl rfl rfl (by decide)⟩

/-- C8: a run of src/main.go with the account access key absent (empty),
or a run of any part_000 variant with the subscription identifier absent,
terminates fatally with a trace containing no SDK call at all. -/
theorem c8_env_required :
    (∀ wb : BlobWorld, (wb.env "AZURE_ACCOUNT_KEY").length = 0 →
      (mainBlob wb).outcome = Outcome.fatal ∧
      (mainBlob wb).trace.all (fun e => !isCallEvent e) = true) ∧
    (∀ wa : ArmWorld, (wa.env "AZURE_SUBSCRIPTION_ID").length = 0 →
      ((mainArm1 wa).outcome = Outcome.fatal ∧
        (mainArm1 wa).trace.all (fun e => !isCallEvent e) = true) ∧
      ((mainArm2 wa).outcome = Outcome.fatal ∧
        (mainArm2 wa).trace.all (fun e => !isCallEvent e) = true) ∧
      ((mainArm3 wa).outcome = Outcome.fatal ∧
        (mainArm3 wa).trace.all (fun e => !isCallEvent e) = true)) := by
  constructor
  · intro wb h
    simp [mainBlob, h, isCallEvent]
  · intro wa h
    refine ⟨?_, ?_, ?_⟩ <;> simp [mainArm1, mainArm2, mainArm3, h, isCallEvent]

/-- Witness for C8 at concrete empty-environment worlds. -/
theorem c8_env_required_witness :
    ((mainBlob c8BlobWorld).outcome = Outcome.fatal ∧
      (mainBlob c8BlobWorld).trace.all (fun e => !isCallEvent e) = true) ∧
    ((mainArm1 c8ArmWorld).outcome = Outcome.fatal ∧
      (mainArm1 c8ArmWorld).trace.all (fun e => !isCallEvent e) = true) :=
  ⟨c8_env_required.1 c8BlobWorld rfl, (c8_env_required.2 c8ArmWorld rfl).1⟩

/-- The blob SAS signing step only appends read-only-signed events. -/
theorem genSaSToken_readOnly (w : BlobWorld) (k : Nat) (tr : List Event)
    (h : tr.all signReadOnlyB = true) :
    (genSaSToken w k tr).trace.all signReadOnlyB = true := by
  unfold genSaSToken
  split <;> simp_all [signReadOnlyB, genSaSTokenRequest]

/-- Variant-2 SAS block: all its events are read-only-signed (its
`ListAccountSAS` permission string is "r"). -/
theorem sasBlockV2_readOnly (w : ArmWorld) (tr : List Event)
    (h : tr.all signReadOnlyB = true) :
    (sasBlockV2 w tr).trace.all signReadOnlyB = true := by
  unfold sasBlockV2
  split <;> simp_all [signReadOnlyB, armV2SASParams]

/-- Variant-3 SAS block: all its events are read-only-signed. -/
theorem sasBlockV3_readOnly (w : ArmWorld) (tr : List Event)
    (h : tr.all signReadOnlyB = true) :
    (sasBlockV3 w tr).trace.all signReadOnlyB = true := by
  unfold sasBlockV3
  split <;> simp_all [signReadOnlyB, armV3SASParams]

/-- The create-then-verify block preserves read-only-signedness of the
trace, whatever continuation follows it. -/
theorem afterNotFound_readOnly (w : ArmWorld) (ec : String) (tr : List Event)
    (cont : List Event → RunResult)
    (h : tr.all signReadOnlyB = true)
    (hcont : ∀ tr', tr'.all signReadOnlyB = true →
      (cont tr').trace.all signReadOnlyB = true) :
    (afterNotFound w ec tr cont).trace.all signReadOnlyB = true := by
  unfold afterNotFound
  repeat' split
  all_goals first
    | (apply hcont; simp_all [signReadOnlyB])
    | simp_all [signReadOnlyB]

/-- C6 (amended): every signing event on any execution path of any of the
four mains is read-only: the blob SAS requests carry no
create/delete/add/write permission and every `ListAccountSAS` request
carries the permission string "r". -/
theorem c6_reachable_requests_read_only (wb : BlobWorld) (wa : ArmWorld) :
    (mainBlob wb).trace.all signReadOnlyB = true ∧
    (mainArm1 wa).trace.all signReadOnlyB = true ∧
    (mainArm2 wa).trace.all signReadOnlyB = true ∧
    (mainArm3 wa).trace.all signReadOnlyB = true := by
  refine ⟨?_, ?_, ?_, ?_⟩
  · unfold mainBlob
    repeat' split
    all_goals first
      | (apply genSaSToken_readOnly; simp [signReadOnlyB])
      | simp [signReadOnlyB]
  · unfold mainArm1
    repeat' split
    all_goals first
      | (apply afterNotFound_readOnly _ _ _ _ (by simp [signReadOnlyB])
          (fun tr' h' => h'))
      | simp [signReadOnlyB]
  · unfold mainArm2
    repeat' split
    all_goals first
      | (apply afterNotFound_readOnly _ _ _ _ (by simp [signReadOnlyB])
          (fun tr' h' => sasBlockV2_readOnly wa tr' h'))
      | simp [signReadOnlyB]
  · unfold mainArm3
    repeat' split
    all_goals first
      | (apply afterNotFound_readOnly _ _ _ _ (by simp [signReadOnlyB])
          (fun tr' h' => sasBlockV3_readOnly wa tr' h'))
      | simp [signReadOnlyB]

/-- C6 counterexample: the account-SAS request constructed by
`printSasToken` (src/main.go lines 58-66, a function no main invokes)
grants create, delete and add — and not even read — so the claim's
read-only property fails at the request built from its own cited lines. -/
theorem c6_counterexample :
    (printSasTokenRequest 0 0).permissions.create = true ∧
    (printSasTokenRequest 0 0).permissions.delete = true ∧
    (printSasTokenRequest 0 0).permissions.add = true ∧
    (printSasTokenRequest 0 0).permissions.read = false := by
  decide

end Claims

end GoAzure
